import Mathlib

/-!
Verification of the authentication and account-lockout state machine of a
MERN blog application (Express server).  The user-record operations
(`findByCredentials`, `incLoginAttempts`, the `isLocked` virtual) live in the
Mongoose `User` model; the HTTP boundary is `src/server/src/routes/auth.js`,
the token utilities are `src/server/src/utils/auth.js`, and the bearer-token
middleware is `src/server/src/middleware/auth.js`.  Time is modelled as a
natural number of milliseconds (the unit used by `Date.now()`).
-/

/-- String constant: the merged credential-failure message thrown by
`findByCredentials` and matched by the login route. -/
def invalidCredentialsMsg : String := "Invalid credentials"

/-- String constant: the lockout-message fragment the login route tests with
`error.message.includes(...)`. -/
def lockedMsgPat : String := "Account temporarily locked"

/-- String constant: the insecure fallback JWT signing key from
`src/server/src/utils/auth.js` (`process.env.JWT_SECRET || 'fallback-secret-key'`). -/
def fallbackSecretKey : String := "fallback-secret-key"

/-- String constant: the login route's 500-path message. -/
def serverErrorLoginMsg : String := "Server error during login"

/-- String constant: middleware answer when no bearer token is supplied. -/
def noTokenMsg : String := "No token, authorization denied"

/-- String constant: middleware answer on signature/expiry failure. -/
def tokenInvalidMsg : String := "Token is not valid"

/-- String constant: middleware answer when the token's `id` resolves to no
stored user. -/
def userNotFoundMsg : String := "User not found"

/-- String constant: the token codec's invalid-signature failure. -/
def invalidSignatureMsg : String := "invalid signature"

/-- String constant: the token codec's expiry failure. -/
def jwtExpiredMsg : String := "jwt expired"

/-- Modelled from the spec: an Account record (`User` document).  The Mongoose
`User` model file itself is absent from the sources; fields follow §3 of the
design (identifier, hashed secret, `failedAttemptCount`, `lockedUntil`,
`lastSuccessfulAuthAt`, active flag) under the names the unit tests observe
(`loginAttempts`, `lockUntil`, `lastLogin`, `isActive`). -/
structure Account where
  uid : String
  username : String
  email : String
  passwordHash : String
  loginAttempts : Nat
  lockUntil : Option Nat
  lastLogin : Option Nat
  isActive : Bool
deriving DecidableEq, Repr

/-- Lockout threshold: 5 failed attempts (spec §4.1, test
`should lock account after max attempts`). -/
def maxLoginAttempts : Nat := 5

/-- Lockout duration: 1 hour in milliseconds (spec §4.1). -/
def lockTime : Nat := 3600000

/-- Modelled from the spec: the `isLocked` virtual of the `User` model —
locked iff `lockUntil` is present and in the future (spec §3; unit test
`should check isLocked virtual correctly`). -/
def isLocked (a : Account) (now : Nat) : Bool :=
  match a.lockUntil with
  | some t => decide (now < t)
  | none => false

/-- Modelled from the spec: `incLoginAttempts` of the `User` model —
increment `failedAttemptCount`; if the increment reaches the threshold, set
`lockedUntil = now + lockoutDuration` (spec §4.1 step 4). -/
def incLoginAttempts (a : Account) (now : Nat) : Account :=
  let n := a.loginAttempts + 1
  { a with
    loginAttempts := n
    lockUntil := if maxLoginAttempts ≤ n then some (now + lockTime) else a.lockUntil }

/-- Error taxonomy of the credential verifier (spec §4.1 / §7).
`AccountLocked` carries the remaining lockout duration in milliseconds. -/
inductive AuthError where
  | InvalidCredentials : AuthError
  | AccountLocked : Nat → AuthError
  | AccountInactive : AuthError
deriving DecidableEq, Repr

/-- Result of one authentication attempt against a single account:
the outcome, the persisted account state, and whether the one-way hash
comparison primitive was invoked during the attempt. -/
structure AttemptResult where
  outcome : Except AuthError Account
  updated : Account
  hashCompared : Bool
deriving Repr

/-- Modelled from the spec: the per-account core of
`User.findByCredentials` (spec §4.1 steps 2–5).  Lock check first (no hash
comparison, no attempt consumed while locked), then the inactive check,
then the hash comparison; mismatch increments the counter via
`incLoginAttempts`, match resets the counter, clears the lock and stamps
`lastLogin`.  The hash primitive is a parameter `verify`. -/
def findByCredentialsAcct (verify : String → String → Bool)
    (a : Account) (password : String) (now : Nat) : AttemptResult :=
  if isLocked a now then
    { outcome := Except.error (AuthError.AccountLocked ((a.lockUntil.getD now) - now))
      updated := a
      hashCompared := false }
  else if !a.isActive then
    { outcome := Except.error AuthError.AccountInactive
      updated := a
      hashCompared := false }
  else if verify password a.passwordHash then
    let a1 := { a with loginAttempts := 0, lockUntil := none, lastLogin := some now }
    { outcome := Except.ok a1, updated := a1, hashCompared := true }
  else
    let a1 := incLoginAttempts a now
    { outcome := Except.error AuthError.InvalidCredentials
      updated := a1
      hashCompared := true }

/-- Record-store lookup by e-mail identifier (`User.findOne({ email })`). -/
def findByIdentifier (store : List Account) (email : String) : Option Account :=
  store.find? (fun a => a.email == email)

/-- Modelled from the spec: `User.findByCredentials(email, password)` over the
record store (spec §4.1 step 1 plus the per-account steps): unknown
identifier fails with `InvalidCredentials` without touching the hash
primitive; a found account is authenticated and its mutation persisted. -/
def findByCredentials (verify : String → String → Bool) (store : List Account)
    (email password : String) (now : Nat) :
    Except AuthError Account × List Account × Bool :=
  match findByIdentifier store email with
  | none => (Except.error AuthError.InvalidCredentials, store, false)
  | some a =>
    let r := findByCredentialsAcct verify a password now
    (r.outcome, store.map (fun b => if b.uid == a.uid then r.updated else b), r.hashCompared)

/-- The message carried by each thrown error, as the login route observes it
(`error.message`): `findByCredentials` throws `Invalid credentials` and
`Account temporarily locked. Try again in <duration>` (integration tests
match these strings); the inactive case gets a message the route does not
special-case. -/
def authErrorMessage : AuthError → String
  | AuthError.InvalidCredentials => invalidCredentialsMsg
  | AuthError.AccountLocked r => lockedMsgPat ++ ". Try again in " ++ toString r
  | AuthError.AccountInactive => "Account is deactivated"

/-- Shape of an HTTP response at the auth boundary: status code, `success`
flag and optional `error` string of the JSON envelope. -/
structure HttpResp where
  status : Nat
  success : Bool
  error : Option String
deriving DecidableEq, Repr

/-- JavaScript `msg.includes(pat)`: the pattern occurs as a substring iff
splitting on it yields more than one piece. -/
def includesSubstr (msg pat : String) : Bool := (msg.splitOn pat).length ≠ 1

/-- The `POST /api/auth/login` handler of `src/server/src/routes/auth.js`
(lines 115–162): success → 200 envelope; an error whose message is exactly
`Invalid credentials` or includes `Account temporarily locked` → 401 with
that message; any other error → 500 `Server error during login`. -/
def loginRoute (verify : String → String → Bool) (store : List Account)
    (email password : String) (now : Nat) : HttpResp × List Account :=
  match findByCredentials verify store email password now with
  | (Except.ok _, store1, _) =>
    ({ status := 200, success := true, error := none }, store1)
  | (Except.error e, store1, _) =>
    let msg := authErrorMessage e
    if msg == invalidCredentialsMsg || includesSubstr msg lockedMsgPat then
      ({ status := 401, success := false, error := some msg }, store1)
    else
      ({ status := 500, success := false, error := some serverErrorLoginMsg }, store1)

/-- String constant: the field name the register route reports for an
e-mail clash. -/
def emailFieldName : String := "email"

/-- String constant: the field name the register route reports for a
username clash. -/
def usernameFieldName : String := "username"

/-- The duplicate-account check of `POST /api/auth/register`
(`src/server/src/routes/auth.js` lines 58–69): `findOne({$or: [{email},
{username}]})`; if a user exists, answer 400 naming the clashing field
(`email` if the found user's e-mail matches, else `username`). -/
def registerDuplicateCheck (store : List Account) (username email : String) :
    Option HttpResp :=
  match store.find? (fun a => a.email == email || a.username == username) with
  | some existing =>
    let field := if existing.email == email then emailFieldName else usernameFieldName
    some { status := 400, success := false
           error := some ("User with this " ++ field ++ " already exists") }
  | none => none

/-- The claim set embedded in a session token by `generateToken`
(`src/server/src/utils/auth.js` lines 13–18): `id`, `email`, `username`. -/
structure JwtClaims where
  id : String
  email : String
  username : String
deriving DecidableEq, Repr

/-- Symbolic model of a signed JWT produced by the external token codec:
the payload, the signing key, and the absolute expiry instant. -/
structure JwtToken where
  payload : JwtClaims
  key : String
  exp : Nat
deriving DecidableEq, Repr

/-- `jwt.sign(payload, secret, { expiresIn: ttl })` at instant `now`. -/
def jwtSign (payload : JwtClaims) (key : String) (ttl now : Nat) : JwtToken :=
  { payload := payload, key := key, exp := now + ttl }

/-- `jwt.verify(token, secret)` at instant `now`: the collaborator contract
of the token codec (spec §6): wrong key ⇒ invalid signature, past expiry ⇒
expired, otherwise the embedded claims. -/
def jwtVerify (t : JwtToken) (key : String) (now : Nat) : Except String JwtClaims :=
  if t.key ≠ key then Except.error invalidSignatureMsg
  else if t.exp ≤ now then Except.error jwtExpiredMsg
  else Except.ok t.payload

/-- The process environment slice consumed by the token utilities:
`JWT_SECRET` and `NODE_ENV`. -/
structure ProcessEnv where
  jwtSecret : Option String
  nodeEnv : Option String
deriving DecidableEq, Repr

/-- `process.env.JWT_SECRET || 'fallback-secret-key'` as written in both
`generateToken`, `verifyToken` and the auth middleware. -/
def jwtSecretOrFallback (env : ProcessEnv) : String :=
  Option.getD env.jwtSecret fallbackSecretKey

/-- Session-token TTL: 24 hours in milliseconds (`expiresIn: '24h'`). -/
def jwtExpireMs : Nat := 86400000

/-- `generateToken(user)` of `src/server/src/utils/auth.js` (lines 13–25):
sign `{id, email, username}` with `JWT_SECRET` or the fallback key, 24h TTL. -/
def generateToken (env : ProcessEnv) (u : Account) (now : Nat) : JwtToken :=
  jwtSign { id := u.uid, email := u.email, username := u.username }
    (jwtSecretOrFallback env) jwtExpireMs now

/-- `verifyToken(token)` of `src/server/src/utils/auth.js` (lines 27–29). -/
def verifyToken (env : ProcessEnv) (t : JwtToken) (now : Nat) : Except String JwtClaims :=
  jwtVerify t (jwtSecretOrFallback env) now

/-- Outcome of the auth middleware: the HTTP status and error message it
answers with, or `error = none` when it calls `next()`. -/
structure MidResp where
  status : Nat
  error : Option String
deriving DecidableEq, Repr

/-- `User.findById` on the record store. -/
def findById (store : List Account) (uid : String) : Option Account :=
  store.find? (fun a => a.uid == uid)

/-- The `auth` middleware of `src/server/src/middleware/auth.js` (lines
5–46): no bearer token → 401 `No token, authorization denied`; signature or
expiry failure → 401 `Token is not valid`; valid token whose `id` resolves
to no stored user → 401 `User not found`; otherwise proceed (`next()`). -/
def authMiddleware (env : ProcessEnv) (store : List Account)
    (bearer : Option JwtToken) (now : Nat) : MidResp :=
  match bearer with
  | none => { status := 401, error := some noTokenMsg }
  | some t =>
    match jwtVerify t (jwtSecretOrFallback env) now with
    | Except.error _ => { status := 401, error := some tokenInvalidMsg }
    | Except.ok decoded =>
      match findById store decoded.id with
      | none => { status := 401, error := some userNotFoundMsg }
      | some _ => { status := 200, error := none }

/-- C6: for an account whose `lockUntil` lies in the future, an
authentication attempt — whatever the presented secret — fails with
`AccountLocked` carrying the remaining duration, the hash-comparison
primitive is never invoked, and the persisted account (in particular its
`loginAttempts` counter) is unchanged. -/
theorem C6_locked_frame (verify : String → String → Bool)
    (a : Account) (password : String) (now L : Nat)
    (hL : a.lockUntil = some L) (hnow : now < L) :
    (findByCredentialsAcct verify a password now).outcome
      = Except.error (AuthError.AccountLocked (L - now)) ∧
    (findByCredentialsAcct verify a password now).hashCompared = false ∧
    (findByCredentialsAcct verify a password now).updated = a := by
  have hlock : isLocked a now = true := by simp [isLocked, hL, hnow]
  simp [findByCredentialsAcct, hlock, hL]

/-- C4: for an account with `lockUntil` set, an attempt made at or past
`lockUntil` is evaluated as if unlocked: the hash comparison proceeds and
the outcome follows the credential check (success on match,
`InvalidCredentials` on mismatch), never `AccountLocked`, regardless of the
prior `loginAttempts` value. -/
theorem C4_lock_expiry_normal_evaluation (verify : String → String → Bool)
    (a : Account) (password : String) (now L : Nat)
    (hL : a.lockUntil = some L) (hexp : L ≤ now) (hact : a.isActive = true) :
    (findByCredentialsAcct verify a password now).hashCompared = true ∧
    (verify password a.passwordHash = true →
      (findByCredentialsAcct verify a password now).outcome
        = Except.ok (findByCredentialsAcct verify a password now).updated) ∧
    (verify password a.passwordHash = false →
      (findByCredentialsAcct verify a password now).outcome
        = Except.error AuthError.InvalidCredentials) := by
  have hlock : isLocked a now = false := by
    simp [isLocked, hL]
    omega
  cases hv : verify password a.passwordHash <;>
    simp [findByCredentialsAcct, hlock, hact, hv]

/-- C3: successful authentication (correct secret, account not locked at
the attempt's instant) succeeds, resets `loginAttempts` to 0 and stamps
`lastLogin` with the current instant, for any prior counter value below
the threshold. -/
theorem C3_success_resets_counter (verify : String → String → Bool)
    (a : Account) (password : String) (now : Nat)
    (hnl : isLocked a now = false) (hact : a.isActive = true)
    (hlt : a.loginAttempts < maxLoginAttempts)
    (hv : verify password a.passwordHash = true) :
    (findByCredentialsAcct verify a password now).outcome
      = Except.ok (findByCredentialsAcct verify a password now).updated ∧
    (findByCredentialsAcct verify a password now).updated.loginAttempts = 0 ∧
    (findByCredentialsAcct verify a password now).updated.lastLogin = some now := by
  simp [findByCredentialsAcct, hnl, hact, hv]

/-- C2: an unlocked account with `loginAttempts = 4` that receives a wrong
secret fails with `InvalidCredentials` on that same call while the counter
becomes 5 and `lockUntil` becomes now + 1 hour; only the next call (made
while the lock is pending, with any secret and any verifier) fails with
`AccountLocked`. -/
theorem C2_threshold_crossing_call (verify verify2 : String → String → Bool)
    (a : Account) (password password2 : String) (now now2 : Nat)
    (h4 : a.loginAttempts = 4) (hnl : a.lockUntil = none) (hact : a.isActive = true)
    (hv : verify password a.passwordHash = false)
    (hnext : now2 < now + lockTime) :
    (findByCredentialsAcct verify a password now).outcome
      = Except.error AuthError.InvalidCredentials ∧
    (findByCredentialsAcct verify a password now).updated.loginAttempts = 5 ∧
    (findByCredentialsAcct verify a password now).updated.lockUntil = some (now + lockTime) ∧
    (findByCredentialsAcct verify2
        (findByCredentialsAcct verify a password now).updated password2 now2).outcome
      = Except.error (AuthError.AccountLocked (now + lockTime - now2)) := by
  have hlock : isLocked a now = false := by simp [isLocked, hnl]
  simp [findByCredentialsAcct, hlock, hact, hv, incLoginAttempts, h4, hnl,
    maxLoginAttempts, isLocked, hnext]

/-- One failed-attempt step: run `findByCredentialsAcct` and keep the
persisted account, as the integration test's repeated login calls do. -/
def failedAttemptStep (verify : String → String → Bool) (password : String)
    (a : Account) (t : Nat) : Account :=
  (findByCredentialsAcct verify a password t).updated

/-- C1: starting from a fresh account (counter 0, no lock), five
consecutive failed attempts set the lock, and the very next call — made
while the lock is pending, even with the correct secret — fails with
`AccountLocked`. -/
theorem C1_lock_after_five_consecutive_failures
    (verify verify2 : String → String → Bool)
    (uid un em hash wrongPw goodPw : String) (ll : Option Nat)
    (t1 t2 t3 t4 t5 t6 : Nat)
    (hv : verify wrongPw hash = false)
    (hv2 : verify2 goodPw hash = true)
    (h6 : t6 < t5 + lockTime) :
    (findByCredentialsAcct verify2
      ([t1, t2, t3, t4, t5].foldl (failedAttemptStep verify wrongPw)
        ⟨uid, un, em, hash, 0, none, ll, true⟩)
      goodPw t6).outcome
      = Except.error (AuthError.AccountLocked (t5 + lockTime - t6)) := by
  simp [failedAttemptStep, findByCredentialsAcct, isLocked, incLoginAttempts,
    maxLoginAttempts, hv, hv2, h6]

/-- C5: an unknown identifier and a known identifier with a wrong secret
produce the identical boundary response: HTTP 401, `success: false`,
error `Invalid credentials` — indistinguishable to the caller. -/
theorem C5_enumeration_resistance (verify : String → String → Bool)
    (store : List Account) (email1 p1 email2 p2 : String)
    (now1 now2 : Nat) (a : Account)
    (h1 : findByIdentifier store email1 = none)
    (h2 : findByIdentifier store email2 = some a)
    (hnl : isLocked a now2 = false) (hact : a.isActive = true)
    (hv : verify p2 a.passwordHash = false) :
    (loginRoute verify store email1 p1 now1).1
      = (loginRoute verify store email2 p2 now2).1 ∧
    (loginRoute verify store email1 p1 now1).1
      = { status := 401, success := false, error := some invalidCredentialsMsg } := by
  simp [loginRoute, findByCredentials, h1, h2, findByCredentialsAcct,
    hnl, hact, hv, authErrorMessage]

/-- C7: a session token produced by `generateToken` verifies successfully
via `verifyToken` at any instant before expiry, and the verified claims
carry the same account identifier, e-mail and username embedded at
issuance. -/
theorem C7_token_roundtrip (env : ProcessEnv) (u : Account) (tIssue tCheck : Nat)
    (h : tCheck < tIssue + jwtExpireMs) :
    verifyToken env (generateToken env u tIssue) tCheck
      = Except.ok { id := u.uid, email := u.email, username := u.username } := by
  have hne : ¬ (tIssue + jwtExpireMs ≤ tCheck) := by omega
  simp [verifyToken, generateToken, jwtSign, jwtVerify, hne]

/-- Concrete fixture: a production environment with no `JWT_SECRET` set. -/
def prodEnvNoSecret : ProcessEnv := { jwtSecret := none, nodeEnv := some ("production") }

/-- Concrete fixture: an account used for token issuance examples. -/
def tokenUser : Account := ⟨"u8", "carol", "carol@x.com", "h8", 0, none, none, true⟩

/-- C8 counterexample: with `NODE_ENV = production` and `JWT_SECRET` unset,
`generateToken` signs with the insecure fallback key and `verifyToken`
accepts that token — the fallback is not restricted to non-production
environments; nothing in the code requires a configured secret in
production. -/
theorem C8_counterexample :
    prodEnvNoSecret.nodeEnv = some ("production") ∧
    (generateToken prodEnvNoSecret tokenUser 0).key = fallbackSecretKey ∧
    verifyToken prodEnvNoSecret (generateToken prodEnvNoSecret tokenUser 0) 1
      = Except.ok { id := tokenUser.uid, email := tokenUser.email
                    username := tokenUser.username } := by
  refine ⟨rfl, rfl, ?_⟩
  simp [verifyToken, generateToken, jwtSign, jwtVerify, jwtExpireMs]

/-- C8 amended: the signing secret is process-wide configuration
(`JWT_SECRET`); whenever it is unset the insecure fallback key is used for
signing, in every environment — `NODE_ENV` (production or not) has no
influence on the signing key. -/
theorem C8_fallback_ignores_environment (env : ProcessEnv) (u : Account)
    (now : Nat) (ne : Option String) (h : env.jwtSecret = none) :
    (generateToken env u now).key = fallbackSecretKey ∧
    generateToken { env with nodeEnv := ne } u now = generateToken env u now := by
  constructor
  · simp [generateToken, jwtSign, jwtSecretOrFallback, h]
  · simp [generateToken, jwtSign, jwtSecretOrFallback]

/-- C8 witness: the amended fact evaluated in the concrete production
environment with no configured secret. -/
theorem C8_fallback_ignores_environment_witness :
    (generateToken prodEnvNoSecret tokenUser 5).key = fallbackSecretKey ∧
    generateToken { prodEnvNoSecret with nodeEnv := none } tokenUser 5
      = generateToken prodEnvNoSecret tokenUser 5 :=
  C8_fallback_ignores_environment prodEnvNoSecret tokenUser 5 none rfl

/-- Concrete fixture: the server's signing key for middleware examples. -/
def serverKey : String := "server-key"

/-- Concrete fixture: process environment with `serverKey` configured. -/
def midEnv : ProcessEnv := { jwtSecret := some serverKey, nodeEnv := none }

/-- Concrete fixture: a one-account record store for middleware examples. -/
def midStore : List Account := [⟨"u9", "dave", "dave@x.com", "h9", 0, none, none, true⟩]

/-- Concrete fixture: a correctly signed token whose embedded `id` resolves
to no stored user. -/
def ghostToken : JwtToken := jwtSign ⟨"ghost", "ghost@x.com", "ghost"⟩ serverKey 100 0

/-- Concrete fixture: a token signed with a different key. -/
def badSigToken : JwtToken := jwtSign ⟨"u9", "dave@x.com", "dave"⟩ ("other-key") 100 0

/-- C9 counterexample: a validly signed token referencing a deleted account
and a token with an invalid signature do NOT produce identical outward
responses: both are 401, but the bodies say `User not found` versus
`Token is not valid`, so the two cases are distinguishable to the caller. -/
theorem C9_counterexample :
    authMiddleware midEnv midStore (some ghostToken) 10
      ≠ authMiddleware midEnv midStore (some badSigToken) 10 ∧
    authMiddleware midEnv midStore (some ghostToken) 10
      = { status := 401, error := some userNotFoundMsg } ∧
    authMiddleware midEnv midStore (some badSigToken) 10
      = { status := 401, error := some tokenInvalidMsg } := by
  refine ⟨?_, rfl, rfl⟩
  decide

/-- C9 amended: a valid signature whose embedded account identifier no
longer resolves to a stored user yields HTTP 401 — the same status code as
an invalid signature — but the response body names the cause
(`User not found` versus `Token is not valid`), so the failure reason is
disclosed rather than hidden. -/
theorem C9_deleted_account_distinct_message (env : ProcessEnv)
    (store : List Account) (t t2 : JwtToken) (now now2 : Nat) (c : JwtClaims)
    (h1 : jwtVerify t (jwtSecretOrFallback env) now = Except.ok c)
    (h2 : findById store c.id = none)
    (h3 : t2.key ≠ jwtSecretOrFallback env) :
    authMiddleware env store (some t) now
      = { status := 401, error := some userNotFoundMsg } ∧
    authMiddleware env store (some t2) now2
      = { status := 401, error := some tokenInvalidMsg } ∧
    (authMiddleware env store (some t) now).status
      = (authMiddleware env store (some t2) now2).status := by
  have e1 : authMiddleware env store (some t) now
      = { status := 401, error := some userNotFoundMsg } := by
    simp [authMiddleware, h1, h2]
  have e2 : authMiddleware env store (some t2) now2
      = { status := 401, error := some tokenInvalidMsg } := by
    simp [authMiddleware, jwtVerify, h3]
  exact ⟨e1, e2, by rw [e1, e2]⟩

/-- C9 witness: the amended fact evaluated on the concrete store and
tokens. -/
theorem C9_deleted_account_distinct_message_witness :
    authMiddleware midEnv midStore (some ghostToken) 10
      = { status := 401, error := some userNotFoundMsg } ∧
    authMiddleware midEnv midStore (some badSigToken) 20
      = { status := 401, error := some tokenInvalidMsg } ∧
    (authMiddleware midEnv midStore (some ghostToken) 10).status
      = (authMiddleware midEnv midStore (some badSigToken) 20).status :=
  C9_deleted_account_distinct_message midEnv midStore ghostToken badSigToken
    10 20 ⟨"ghost", "ghost@x.com", "ghost"⟩ rfl rfl (by decide)

/-- C10: a registration request whose e-mail or username clashes with an
existing account gets HTTP 400 with a message naming a field (`email` or
`username`) that is in fact already taken — disclosing account existence at
the registration endpoint, unlike the merged login error. -/
theorem C10_register_duplicate_names_field (store : List Account)
    (username email : String) (existing : Account)
    (h : store.find? (fun a => a.email == email || a.username == username)
      = some existing) :
    (registerDuplicateCheck store username email
        = some { status := 400, success := false
                 error := some ("User with this " ++ emailFieldName ++ " already exists") }
      ∧ existing.email = email) ∨
    (registerDuplicateCheck store username email
        = some { status := 400, success := false
                 error := some ("User with this " ++ usernameFieldName ++ " already exists") }
      ∧ existing.username = username) := by
  have hp := List.find?_some h
  cases hb : (existing.email == email) with
  | true =>
    left
    exact ⟨by simp [registerDuplicateCheck, h, hb], eq_of_beq hb⟩
  | false =>
    right
    rw [hb] at hp
    simp at hp
    exact ⟨by simp [registerDuplicateCheck, h, hb], hp⟩

/-- Concrete fixture: hash verification by equality of password and stored
digest, standing in for the bcrypt compare primitive in witnesses. -/
def eqVerify : String → String → Bool := fun p d => p == d

/-- Concrete fixture: an unlocked account with `loginAttempts = 4`. -/
def nearLockAcct : Account := ⟨"w2", "bob", "bob@x.com", "pw2", 4, none, none, true⟩

/-- Concrete fixture: an unlocked account with `loginAttempts = 3`. -/
def midAcct : Account := ⟨"w3", "carl", "carl@x.com", "pw3", 3, none, none, true⟩

/-- Concrete fixture: an account whose lock expired at instant 50. -/
def expiredLockAcct : Account := ⟨"w4", "dora", "dora@x.com", "pw4", 5, some 50, none, true⟩

/-- Concrete fixture: an account of a one-element record store. -/
def eveAcct : Account := ⟨"w5", "eve", "eve@x.com", "pw5", 0, none, none, true⟩

/-- Concrete fixture: a one-element record store. -/
def oneAcctStore : List Account := [eveAcct]

/-- Concrete fixture: an account locked until instant 1000. -/
def lockedAcct : Account := ⟨"w6", "finn", "finn@x.com", "pw6", 5, some 1000, none, true⟩

/-- Concrete fixture: an account present in a store queried for duplicates. -/
def graceAcct : Account := ⟨"w10", "grace", "grace@x.com", "pw10", 0, none, none, true⟩

/-- Concrete fixture: the store used for the duplicate-registration example. -/
def dupStore : List Account := [graceAcct]

/-- C1 witness: five failed attempts at instants 1..5 on a fresh account,
then a correct-secret call at instant 10, which is rejected as locked. -/
theorem C1_lock_after_five_consecutive_failures_witness :
    eqVerify ("bad") ("pw1") = false ∧
    eqVerify ("pw1") ("pw1") = true ∧
    (10 : Nat) < 5 + lockTime ∧
    (findByCredentialsAcct eqVerify
      ([1, 2, 3, 4, 5].foldl (failedAttemptStep eqVerify ("bad"))
        ⟨"w1", "alice", "alice@x.com", "pw1", 0, none, none, true⟩)
      ("pw1") 10).outcome
      = Except.error (AuthError.AccountLocked (5 + lockTime - 10)) :=
  ⟨by decide, by decide, by decide,
    C1_lock_after_five_consecutive_failures eqVerify eqVerify ("w1") ("alice")
      ("alice@x.com") ("pw1") ("bad") ("pw1") none 1 2 3 4 5 10
      (by decide) (by decide) (by decide)⟩

/-- C2 witness: the `loginAttempts = 4` account, wrong secret at instant 7,
then another call at instant 20. -/
theorem C2_threshold_crossing_call_witness :
    nearLockAcct.loginAttempts = 4 ∧
    nearLockAcct.lockUntil = none ∧
    eqVerify ("bad") nearLockAcct.passwordHash = false ∧
    (20 : Nat) < 7 + lockTime ∧
    ((findByCredentialsAcct eqVerify nearLockAcct ("bad") 7).outcome
        = Except.error AuthError.InvalidCredentials ∧
      (findByCredentialsAcct eqVerify nearLockAcct ("bad") 7).updated.loginAttempts = 5 ∧
      (findByCredentialsAcct eqVerify nearLockAcct ("bad") 7).updated.lockUntil
        = some (7 + lockTime) ∧
      (findByCredentialsAcct eqVerify
          (findByCredentialsAcct eqVerify nearLockAcct ("bad") 7).updated ("x") 20).outcome
        = Except.error (AuthError.AccountLocked (7 + lockTime - 20))) :=
  ⟨rfl, rfl, by decide, by decide,
    C2_threshold_crossing_call eqVerify eqVerify nearLockAcct ("bad") ("x") 7 20
      rfl rfl rfl (by decide) (by decide)⟩

/-- C3 witness: account with 3 failed attempts, correct secret at instant 42. -/
theorem C3_success_resets_counter_witness :
    isLocked midAcct 42 = false ∧
    midAcct.loginAttempts < maxLoginAttempts ∧
    eqVerify ("pw3") midAcct.passwordHash = true ∧
    ((findByCredentialsAcct eqVerify midAcct ("pw3") 42).outcome
        = Except.ok (findByCredentialsAcct eqVerify midAcct ("pw3") 42).updated ∧
      (findByCredentialsAcct eqVerify midAcct ("pw3") 42).updated.loginAttempts = 0 ∧
      (findByCredentialsAcct eqVerify midAcct ("pw3") 42).updated.lastLogin = some 42) :=
  ⟨rfl, by decide, by decide,
    C3_success_resets_counter eqVerify midAcct ("pw3") 42 rfl rfl (by decide) (by decide)⟩

/-- C4 witness: lock expired at 50, correct secret presented at 60. -/
theorem C4_lock_expiry_normal_evaluation_witness :
    expiredLockAcct.lockUntil = some 50 ∧
    (50 : Nat) ≤ 60 ∧
    ((findByCredentialsAcct eqVerify expiredLockAcct ("pw4") 60).hashCompared = true ∧
      (eqVerify ("pw4") expiredLockAcct.passwordHash = true →
        (findByCredentialsAcct eqVerify expiredLockAcct ("pw4") 60).outcome
          = Except.ok (findByCredentialsAcct eqVerify expiredLockAcct ("pw4") 60).updated) ∧
      (eqVerify ("pw4") expiredLockAcct.passwordHash = false →
        (findByCredentialsAcct eqVerify expiredLockAcct ("pw4") 60).outcome
          = Except.error AuthError.InvalidCredentials)) :=
  ⟨rfl, by decide,
    C4_lock_expiry_normal_evaluation eqVerify expiredLockAcct ("pw4") 60 50
      rfl (by decide) rfl⟩

/-- C5 witness: unknown identifier versus known identifier with wrong
secret, on the one-account store. -/
theorem C5_enumeration_resistance_witness :
    findByIdentifier oneAcctStore ("nobody@x.com") = none ∧
    findByIdentifier oneAcctStore ("eve@x.com") = some eveAcct ∧
    eqVerify ("wrong") eveAcct.passwordHash = false ∧
    ((loginRoute eqVerify oneAcctStore ("nobody@x.com") ("anything") 1).1
        = (loginRoute eqVerify oneAcctStore ("eve@x.com") ("wrong") 2).1 ∧
      (loginRoute eqVerify oneAcctStore ("nobody@x.com") ("anything") 1).1
        = { status := 401, success := false, error := some invalidCredentialsMsg }) :=
  ⟨by decide, by decide, by decide,
    C5_enumeration_resistance eqVerify oneAcctStore ("nobody@x.com") ("anything")
      ("eve@x.com") ("wrong") 1 2 eveAcct (by decide) (by decide) rfl rfl (by decide)⟩

/-- C6 witness: account locked until 1000, correct secret presented at 400. -/
theorem C6_locked_frame_witness :
    lockedAcct.lockUntil = some 1000 ∧
    (400 : Nat) < 1000 ∧
    ((findByCredentialsAcct eqVerify lockedAcct ("pw6") 400).outcome
        = Except.error (AuthError.AccountLocked (1000 - 400)) ∧
      (findByCredentialsAcct eqVerify lockedAcct ("pw6") 400).hashCompared = false ∧
      (findByCredentialsAcct eqVerify lockedAcct ("pw6") 400).updated = lockedAcct) :=
  ⟨rfl, by decide, C6_locked_frame eqVerify lockedAcct ("pw6") 400 1000 rfl (by decide)⟩

/-- C7 witness: token issued at instant 100 and verified at instant 5000. -/
theorem C7_token_roundtrip_witness :
    (5000 : Nat) < 100 + jwtExpireMs ∧
    verifyToken midEnv (generateToken midEnv tokenUser 100) 5000
      = Except.ok { id := tokenUser.uid, email := tokenUser.email
                    username := tokenUser.username } :=
  ⟨by decide, C7_token_roundtrip midEnv tokenUser 100 5000 (by decide)⟩

/-- C10 witness: registering with `graceAcct`'s e-mail and a fresh username. -/
theorem C10_register_duplicate_names_field_witness :
    (registerDuplicateCheck dupStore ("newname") ("grace@x.com")
        = some { status := 400, success := false
                 error := some ("User with this " ++ emailFieldName ++ " already exists") }
      ∧ graceAcct.email = "grace@x.com") ∨
    (registerDuplicateCheck dupStore ("newname") ("grace@x.com")
        = some { status := 400, success := false
                 error := some ("User with this " ++ usernameFieldName ++ " already exists") }
      ∧ graceAcct.username = "newname") :=
  C10_register_duplicate_names_field dupStore ("newname") ("grace@x.com") graceAcct rfl
